import Mathlib

/-!
Verification development for the HackRice-2025 repository.

The development shallowly embeds the parts of the program that the
specification talks about:

* `Summarizer` — the conversation-summarization pipeline (single-shot and
  streaming modes, forgiving parser, stream-event protocol).  The backend
  implementation files (`llm_service.py`, `server.py`) are not part of the
  source tree given here, so these definitions are modelled from the spec.
* `ApiClient` — the frontend `ApiService.request` wrapper from
  `frontend/src/services/api.ts`.
* `PatientsUI` — the patient list operations of the `Patients` component.
* `SpeechCapture` — the browser speech-to-text service state machine from
  `speechToText.ts`.
-/

/-- Decidable equality for `Except`, used to evaluate results on concrete
inputs. -/
instance {ε α : Type} [DecidableEq ε] [DecidableEq α] : DecidableEq (Except ε α) := fun x y =>
  match x, y with
  | .ok a, .ok b =>
    if h : a = b then isTrue (by rw [h]) else isFalse (by intro he; cases he; exact h rfl)
  | .error a, .error b =>
    if h : a = b then isTrue (by rw [h]) else isFalse (by intro he; cases he; exact h rfl)
  | .ok _, .error _ => isFalse (by intro he; cases he)
  | .error _, .ok _ => isFalse (by intro he; cases he)

namespace Summarizer

/-- Modelled from the spec: the seven field names of a StructuredSummary
(spec section 3).  The backend code producing them is missing from the
source tree. -/
def fieldLabels : List String :=
  ["vitals", "symptoms", "medical_history", "patient_concerns",
   "nurse_observations", "additional_characteristics", "summary"]

/-- Modelled from the spec: the StructuredSummary output record
(spec section 3); field values are kept as raw extracted text. -/
structure StructuredSummary where
  vitals : String
  symptoms : String
  medical_history : String
  patient_concerns : String
  nurse_observations : String
  additional_characteristics : String
  summary : String
deriving DecidableEq

/-- The serialized key/value form of a StructuredSummary, in the order of
`fieldLabels`. -/
def toFields (s : StructuredSummary) : List (String × String) :=
  [("vitals", s.vitals), ("symptoms", s.symptoms),
   ("medical_history", s.medical_history),
   ("patient_concerns", s.patient_concerns),
   ("nurse_observations", s.nurse_observations),
   ("additional_characteristics", s.additional_characteristics),
   ("summary", s.summary)]

/-- Look up an extracted field by label, defaulting to the empty string. -/
def lookupField (fs : List (String × String)) (lbl : String) : String :=
  match fs.find? (fun f => f.1 == lbl) with
  | some f => f.2
  | none => ""

/-- Whitespace test for the charwise text functions below; the text
manipulation is done on character lists so that every definition is
structurally recursive. -/
def isWsChar (c : Char) : Bool :=
  (c == ' ') || (c == '\n') || (c == '\t') || (c == '\r')

/-- Charwise trim. -/
def trimChars (cs : List Char) : List Char :=
  ((cs.dropWhile isWsChar).reverse.dropWhile isWsChar).reverse

/-- Charwise prefix test. -/
def leadsWith : List Char → List Char → Bool
  | [], _ => true
  | _ :: _, [] => false
  | p :: ps, c :: cs => (p == c) && leadsWith ps cs

/-- Charwise line splitting on the newline character. -/
def splitLinesChars : List Char → List (List Char)
  | [] => [[]]
  | c :: cs =>
    if c == '\n' then [] :: splitLinesChars cs
    else
      match splitLinesChars cs with
      | [] => [[c]]
      | l :: ls => (c :: l) :: ls

/-- A transcript is blank when it is empty or whitespace-only. -/
def isBlank (t : String) : Bool := (t.data.dropWhile isWsChar).isEmpty

/-- Build the output record from the extracted fields; fields that were not
extracted are present but empty (spec section 3 invariant). -/
def buildSummary (fs : List (String × String)) : StructuredSummary where
  vitals := lookupField fs "vitals"
  symptoms := lookupField fs "symptoms"
  medical_history := lookupField fs "medical_history"
  patient_concerns := lookupField fs "patient_concerns"
  nurse_observations := lookupField fs "nurse_observations"
  additional_characteristics := lookupField fs "additional_characteristics"
  summary := lookupField fs "summary"

/-- Modelled from the spec: the labeled-section heuristic of the forgiving
parser (spec section 4.1): a line beginning with a field label followed by a
colon populates that field with the rest of the line. -/
def extractAfterLabel (lbl : String) (line : List Char) : Option String :=
  let l := trimChars line
  if leadsWith ((lbl ++ ":").data) (l.map Char.toLower) then
    some (String.mk (trimChars (l.drop (lbl.length + 1))))
  else
    none

/-- Modelled from the spec: field-by-field best-effort extraction using
labeled-section heuristics (spec section 4.1, step 3). -/
def extractFields (text : List Char) : List (String × String) :=
  fieldLabels.filterMap fun lbl =>
    ((splitLinesChars text).findSome? (extractAfterLabel lbl)).map (fun v => (lbl, v))

def openBrace : Char := Char.ofNat 123

def closeBrace : Char := Char.ofNat 125

/-- Modelled from the spec: locate the most plausible structured-data span in
the raw text (spec section 4.1, step 1) — the segment from the first opening
brace to the last closing brace. -/
def locateSpan (text : List Char) : Option (List Char) :=
  let fromOpen := text.dropWhile (fun c => !(c == openBrace))
  let upToClose := (fromOpen.reverse.dropWhile (fun c => !(c == closeBrace))).reverse
  if upToClose.isEmpty then none else some upToClose

/-- Modelled from the spec: the strict parse (spec section 4.1, step 2) — it
succeeds only when a structured-data span exists and every one of the seven
fields can be read from it. -/
def strictParse (text : List Char) : Option (List (String × String)) :=
  match locateSpan text with
  | none => none
  | some span =>
    let fs := extractFields span
    if fs.length = fieldLabels.length then some fs else none

/-- Modelled from the spec: the error taxonomy of the pipeline
(spec section 7). -/
inductive SummError where
  | invalidInput
  | backendUnavailable
  | malformedModelOutput
deriving DecidableEq

def errMessage : SummError → String
  | .invalidInput => "InvalidInput: transcript is empty"
  | .backendUnavailable => "BackendUnavailable: model backend unreachable"
  | .malformedModelOutput => "MalformedModelOutput: no structured fields could be extracted"

/-- Modelled from the spec: the forgiving parsing policy (spec section 4.1):
strict parse first, labeled-section fallback second, and failure with
`MalformedModelOutput` when no fields at all can be extracted. -/
def parseSummary (text : String) : Except SummError StructuredSummary :=
  match strictParse text.data with
  | some fs => Except.ok (buildSummary fs)
  | none =>
    let fs := extractFields text.data
    if fs.isEmpty then Except.error SummError.malformedModelOutput
    else Except.ok (buildSummary fs)

/-- Modelled from the spec: the external text-generation backend
(spec section 6, collaborator a): a blocking completion operation and a
streaming operation yielding fragments, plus the active model identifier. -/
structure Backend where
  model : String
  complete : String → String
  streamChunks : String → List String

/-- Modelled from the spec: the generation prompt built around the
transcript (spec section 4.1). -/
def buildPrompt (t : String) : String :=
  "Analyze the following nurse-patient conversation and respond with the structured medical summary fields.\n" ++ t

/-- Modelled from the spec: single-shot summarization (spec section 4.1).
The second component counts the completion requests issued to the backend. -/
def singleShot (b : Backend) (t : String) : Except SummError StructuredSummary × Nat :=
  if isBlank t then (Except.error SummError.invalidInput, 0)
  else
    match parseSummary (b.complete (buildPrompt t)) with
    | .ok s => (Except.ok s, 1)
    | .error e => (Except.error e, 1)

/-- Modelled from the spec: the four-variant stream-event protocol plus the
error event (spec section 3). -/
inductive StreamEvent where
  | metadataEv (modelUsed status : String)
  | chunkEv (fragment : String) (accumulatedLength : Nat) (done : Bool)
  | finalEv (data : StructuredSummary)
  | completeEv
  | errorEv (message : String)
deriving DecidableEq

/-- The chunk events for a fragment list, carrying the running cumulative
character count. -/
def chunkEvents : List String → Nat → List StreamEvent
  | [], _ => []
  | f :: fs, n => StreamEvent.chunkEv f (n + f.length) false :: chunkEvents fs (n + f.length)

/-- Modelled from the spec: the streaming operation (spec sections 4.1, 4.2):
metadata first, one chunk per backend fragment in order, then the parse of
the accumulated text decides between final+complete and a terminal error
event.  The second component counts backend requests. -/
def streamRun (b : Backend) (t : String) : Except SummError (List StreamEvent) × Nat :=
  if isBlank t then (Except.error SummError.invalidInput, 0)
  else
    match parseSummary (String.join (b.streamChunks (buildPrompt t))) with
    | .ok s =>
      (Except.ok (StreamEvent.metadataEv b.model "started" ::
        (chunkEvents (b.streamChunks (buildPrompt t)) 0 ++
          [StreamEvent.finalEv s, StreamEvent.completeEv])), 1)
    | .error e =>
      (Except.ok (StreamEvent.metadataEv b.model "started" ::
        (chunkEvents (b.streamChunks (buildPrompt t)) 0 ++
          [StreamEvent.errorEv (errMessage e)])), 1)

/-- The event list of a streaming run (empty when the request was rejected
before streaming began). -/
def eventsOf (r : Except SummError (List StreamEvent) × Nat) : List StreamEvent :=
  match r.1 with
  | .ok evs => evs
  | .error _ => []

def isFinalEv : StreamEvent → Bool
  | .finalEv _ => true
  | _ => false

/-- A stream is successful when it carries a final event. -/
def containsFinal (evs : List StreamEvent) : Bool := evs.any isFinalEv

/-- The StructuredSummary carried by the first final event of a stream, if
any. -/
def finalSummary : List StreamEvent → Option StructuredSummary
  | [] => none
  | StreamEvent.finalEv s :: _ => some s
  | _ :: rest => finalSummary rest

/-- The regular expression `metadata chunk* final complete`, continued after
the leading metadata event. -/
def tailProtocol : List StreamEvent → Bool
  | StreamEvent.chunkEv _ _ _ :: rest => tailProtocol rest
  | [StreamEvent.finalEv _, StreamEvent.completeEv] => true
  | _ => false

/-- Whether an event list matches `metadata chunk* final complete` exactly. -/
def matchesProtocol : List StreamEvent → Bool
  | StreamEvent.metadataEv _ _ :: rest => tailProtocol rest
  | _ => false

/-- The single-shot result as an optional summary. -/
def singleResult (b : Backend) (t : String) : Option StructuredSummary :=
  match (singleShot b t).1 with
  | .ok s => some s
  | .error _ => none

/-- Field-for-field comparison of two optional summaries. -/
def fieldsMatch : Option StructuredSummary → Option StructuredSummary → Bool
  | some a, some b =>
    (a.vitals == b.vitals) && (a.symptoms == b.symptoms) &&
    (a.medical_history == b.medical_history) &&
    (a.patient_concerns == b.patient_concerns) &&
    (a.nurse_observations == b.nurse_observations) &&
    (a.additional_characteristics == b.additional_characteristics) &&
    (a.summary == b.summary)
  | none, none => true
  | _, _ => false

/-- Whether an optional pipeline output presents all seven field keys. -/
def presentKeys : Option StructuredSummary → Bool
  | none => true
  | some s => (toFields s).map Prod.fst == fieldLabels

/-- Modelled from the spec: the single-shot JSON envelope
(spec section 6). -/
structure Envelope where
  success : Bool
  data : Option StructuredSummary
  error : Option String
deriving DecidableEq

/-- Modelled from the spec: the single-shot entry point wrapping the result
in the success/data/error envelope (spec sections 6, 7). -/
def summarizeEnvelope (b : Backend) (t : String) : Envelope :=
  match (singleShot b t).1 with
  | .ok s => { success := true, data := some s, error := none }
  | .error e => { success := false, data := none, error := some (errMessage e) }

/-- A concrete deterministic backend used to witness the theorems: it streams
two labeled-section fragments and completes with their concatenation. -/
def demoBackend : Backend where
  model := "qwen3:8b"
  complete := fun _ => String.join ["vitals: blood pressure 120/80\n", "summary: patient stable"]
  streamChunks := fun _ => ["vitals: blood pressure 120/80\n", "summary: patient stable"]

def demoTranscript : String := "Nurse: How are you feeling today?"

/-- A concrete backend whose output carries none of the expected structure:
plain prose with no braces and no labeled section. -/
def proseBackend : Backend where
  model := "qwen3:8b"
  complete := fun _ => "lorem ipsum dolor sit amet"
  streamChunks := fun _ => ["lorem ipsum dolor sit amet"]

end Summarizer

namespace ApiClient

/-- The environment of one `ApiService.request` call in
`frontend/src/services/api.ts`: the `fetch` response.  `jsonResult` is what
`response.json()` resolves to — `Except.ok` with the parsed body, or
`Except.error` when the body is not valid JSON and the parse rejects. -/
structure HttpResponse (α : Type) where
  ok : Bool
  status : Nat
  statusText : String
  jsonResult : Except String α

/-- The envelope type `ApiResponse` declared in `api.ts`. -/
structure ApiResponse (α : Type) where
  success : Bool
  message : String
  data : Option α
deriving DecidableEq

/-- `ApiService.request` (api.ts lines 117-143): a non-ok response status
throws an error naming the status; an ok status returns the JSON-parsed
response body. -/
def request {α : Type} (resp : HttpResponse α) : Except String α :=
  if resp.ok = false then
    Except.error ("API request failed: " ++ toString resp.status ++ " " ++ resp.statusText)
  else
    resp.jsonResult

/-- `ApiService.summarizeConversation` (api.ts lines 221-229): delegates to
`request` on the response of its POST. -/
def summarizeConversation {α : Type} (resp : HttpResponse (ApiResponse α)) :
    Except String (ApiResponse α) :=
  request resp

/-- `ApiService.healthCheck` (api.ts lines 232-234): delegates to `request`
on the response of its GET. -/
def healthCheck {α : Type} (resp : HttpResponse (ApiResponse α)) :
    Except String (ApiResponse α) :=
  request resp

/-- A concrete failed HTTP response used to witness the theorems. -/
def failedResponse : HttpResponse (ApiResponse Unit) where
  ok := false
  status := 500
  statusText := "Internal Server Error"
  jsonResult := Except.error "unreachable"

/-- A concrete successful HTTP response used to witness the theorems. -/
def okResponse : HttpResponse (ApiResponse Unit) where
  ok := true
  status := 200
  statusText := "OK"
  jsonResult := Except.ok { success := true, message := "done", data := none }

end ApiClient

namespace PatientsUI

/-- The `Patient` interface of the `Patients` component (part_000 lines
4-12).  The numeric `age` is modelled as `Int`; the NaN result of a failed
JavaScript parseInt is out of scope. -/
structure UIPatient where
  id : String
  name : String
  age : Int
  condition : String
  status : String
  lastVisit : String
  doctor : String
deriving DecidableEq

/-- The form data of the add-patient modal (part_000 lines 14-21); every
field is captured as a string. -/
structure PatientForm where
  name : String
  age : String
  condition : String
  status : String
  lastVisit : String
  doctor : String

/-- The initial patient list of the component (part_000 lines 24-61). -/
def initialPatients : List UIPatient :=
  [{ id := "1", name := "John Smith", age := 45, condition := "Hypertension",
     status := "Active", lastVisit := "2024-01-15", doctor := "Dr. Johnson" },
   { id := "2", name := "Sarah Wilson", age := 32, condition := "Diabetes",
     status := "Recovered", lastVisit := "2024-01-10", doctor := "Dr. Brown" },
   { id := "3", name := "Michael Davis", age := 58, condition := "Heart Disease",
     status := "Critical", lastVisit := "2024-01-18", doctor := "Dr. Johnson" },
   { id := "4", name := "Emily Johnson", age := 28, condition := "Asthma",
     status := "Active", lastVisit := "2024-01-12", doctor := "Dr. Smith" }]

/-- `handleSubmit` (part_000 lines 96-126): the new patient gets the id
`(patients.length + 1).toString()` and is appended to the list. -/
def handleSubmit (patients : List UIPatient) (form : PatientForm) : List UIPatient :=
  let newId := toString (patients.length + 1)
  patients ++
    [{ id := newId, name := form.name, age := (form.age.toInt?).getD 0,
       condition := form.condition, status := form.status,
       lastVisit := form.lastVisit, doctor := form.doctor }]

/-- `handleDeletePatient` (part_000 lines 150-153): keep every patient whose
id differs from the deleted one. -/
def handleDeletePatient (patients : List UIPatient) (patientId : String) : List UIPatient :=
  patients.filter (fun p => p.id != patientId)

/-- The ids of a patient list, in order. -/
def patientIds (patients : List UIPatient) : List String :=
  patients.map (fun p => p.id)

/-- Whether some id occurs twice in the list. -/
def hasDuplicateIds (patients : List UIPatient) : Bool :=
  ! decide (patientIds patients).Nodup

/-- A concrete filled form used in the theorems. -/
def demoForm : PatientForm where
  name := "Alice Brown"
  age := "37"
  condition := "Migraine"
  status := "Active"
  lastVisit := "2024-02-01"
  doctor := "Dr. Lee"

end PatientsUI

namespace SpeechCapture

/-- The mutable fields of `SpeechToTextService` (speechToText.ts, part_002)
that the claims are about.  `hasRecognition` records whether the browser
provided a SpeechRecognition constructor. -/
structure SpeechState where
  hasRecognition : Bool
  isRecording : Bool
  fullTranscript : String
deriving DecidableEq

/-- The external events driving the service: the public start/stop calls and
the recognition callbacks.  `startRecThrows` is a start call during which the
underlying `recognition.start()` throws.  A `resultEv` carries the
recognition results of one `onresult` callback as (transcript, isFinal)
pairs in order. -/
inductive SpeechEvent where
  | startRec
  | startRecThrows
  | resultEv (results : List (String × Bool))
  | sessionEnd
  | stopRec
deriving DecidableEq

/-- What the service does or returns on one event. -/
inductive SpeechOutput where
  | silent
  | started (ok : Bool)
  | restartAttempted (attempted : Bool)
  | stopped (transcript : String)
deriving DecidableEq

/-- The final-transcript increment of one `onresult` callback (part_002
lines 28-44): the final results concatenated, each followed by a space;
interim results contribute nothing. -/
def finalChunk (results : List (String × Bool)) : String :=
  String.join ((results.filter (fun r => r.2)).map (fun r => r.1 ++ " "))

/-- One step of the service (part_002): `startRecording` (lines 82-109),
the `onresult` handler (lines 28-63), the `onend` handler (lines 70-79) and
`stopRecording` (lines 111-120), each translated branch by branch. -/
def step (s : SpeechState) : SpeechEvent → SpeechState × SpeechOutput
  | .startRec =>
    if s.hasRecognition = false then (s, .started false)
    else if s.isRecording then (s, .started true)
    else ({ s with isRecording := true, fullTranscript := "" }, .started true)
  | .startRecThrows =>
    if s.hasRecognition = false then (s, .started false)
    else if s.isRecording then (s, .started true)
    else ({ s with isRecording := false, fullTranscript := "" }, .started false)
  | .resultEv results =>
    let increment := finalChunk results
    if increment.isEmpty then (s, .silent)
    else ({ s with fullTranscript := s.fullTranscript ++ increment }, .silent)
  | .sessionEnd =>
    if s.isRecording then (s, .restartAttempted true) else (s, .restartAttempted false)
  | .stopRec =>
    if s.hasRecognition = false || s.isRecording = false then (s, .stopped s.fullTranscript)
    else ({ s with isRecording := false }, .stopped s.fullTranscript)

/-- `getFullTranscript` (part_002 lines 122-124). -/
def getFullTranscript (s : SpeechState) : String := s.fullTranscript

/-- Run a sequence of events from a state. -/
def runEvents (s : SpeechState) (es : List SpeechEvent) : SpeechState :=
  es.foldl (fun st e => (step st e).1) s

def isResultEv : SpeechEvent → Bool
  | .resultEv _ => true
  | _ => false

/-- The concatenation of the final fragments of a list of events, each
followed by a space. -/
def finalsConcat : List SpeechEvent → String
  | [] => ""
  | SpeechEvent.resultEv results :: es => finalChunk results ++ finalsConcat es
  | _ :: es => finalsConcat es

/-- The fresh service state in a browser that supports speech recognition. -/
def initState : SpeechState where
  hasRecognition := true
  isRecording := false
  fullTranscript := ""

end SpeechCapture

namespace Summarizer

theorem tailProtocol_chunks (fs : List String) (n : Nat) (s : StructuredSummary) :
    tailProtocol (chunkEvents fs n ++ [StreamEvent.finalEv s, StreamEvent.completeEv]) = true := by
  induction fs generalizing n with
  | nil => rfl
  | cons f fs ih => exact ih (n + f.length)

theorem chunkEvents_no_final (fs : List String) (n : Nat) :
    (chunkEvents fs n).any isFinalEv = false := by
  induction fs generalizing n with
  | nil => rfl
  | cons f fs ih => exact ih (n + f.length)

theorem finalSummary_chunks_append (fs : List String) (n : Nat) (l : List StreamEvent) :
    finalSummary (chunkEvents fs n ++ l) = finalSummary l := by
  induction fs generalizing n with
  | nil => rfl
  | cons f fs ih => exact ih (n + f.length)

/-- Claim C1: for every successful streaming request — one whose event list
carries a final event — the emitted events match the regular expression
`metadata chunk* final complete` exactly: one leading metadata event, zero
or more chunks, one final, one complete, and nothing after. -/
theorem stream_events_match_protocol (b : Backend) (t : String)
    (h : containsFinal (eventsOf (streamRun b t)) = true) :
    matchesProtocol (eventsOf (streamRun b t)) = true := by
  unfold eventsOf streamRun at h ⊢
  by_cases hb : isBlank t = true
  · rw [if_pos hb] at h
    simp [containsFinal] at h
  · rw [if_neg hb] at h ⊢
    cases hp : parseSummary (String.join (b.streamChunks (buildPrompt t))) with
    | ok s =>
      exact tailProtocol_chunks (b.streamChunks (buildPrompt t)) 0 s
    | error e =>
      rw [hp] at h
      simp [containsFinal, isFinalEv, List.any_append, chunkEvents_no_final] at h

/-- Witness for C1 on a concrete backend and transcript. -/
theorem stream_events_match_protocol_witness :
    matchesProtocol (eventsOf (streamRun demoBackend demoTranscript)) = true :=
  stream_events_match_protocol demoBackend demoTranscript (by decide)

theorem presentKeys_true (o : Option StructuredSummary) : presentKeys o = true := by
  cases o with
  | none => rfl
  | some s => rfl

/-- Claim C2: every StructuredSummary the pipeline produces — the
single-shot result as well as the streaming final event — presents all
seven field keys, each present even when its value is empty. -/
theorem structured_summary_all_fields_present (b : Backend) (t : String) :
    presentKeys (singleResult b t) = true ∧
    presentKeys (finalSummary (eventsOf (streamRun b t))) = true :=
  ⟨presentKeys_true _, presentKeys_true _⟩

/-- Claim C3: when the backend text admits no strict parse and the
labeled-section heuristic extracts no fields at all, single-shot
summarization fails with `MalformedModelOutput` after its one backend call,
rather than returning a guessed or silently empty record. -/
theorem unparseable_output_fails_malformed (b : Backend) (t : String)
    (h1 : isBlank t = false)
    (h2 : strictParse (b.complete (buildPrompt t)).data = none)
    (h3 : extractFields (b.complete (buildPrompt t)).data = []) :
    singleShot b t = (Except.error SummError.malformedModelOutput, 1) := by
  unfold singleShot parseSummary
  rw [h1, h2, h3]
  rfl

/-- Witness for C3 on a backend that returns unlabeled prose. -/
theorem unparseable_output_fails_malformed_witness :
    singleShot proseBackend demoTranscript = (Except.error SummError.malformedModelOutput, 1) :=
  unparseable_output_fails_malformed proseBackend demoTranscript
    (by decide) (by decide) (by decide)

/-- Claim C4: an empty or whitespace-only transcript makes both the
single-shot and the streaming operation fail with `InvalidInput`, with zero
calls made to the text-generation backend. -/
theorem blank_transcript_rejected_before_backend (b : Backend) (t : String)
    (h : isBlank t = true) :
    singleShot b t = (Except.error SummError.invalidInput, 0) ∧
    streamRun b t = (Except.error SummError.invalidInput, 0) := by
  unfold singleShot streamRun
  rw [h]
  exact ⟨rfl, rfl⟩

/-- Witness for C4 on a whitespace-only transcript. -/
theorem blank_transcript_rejected_before_backend_witness :
    singleShot demoBackend "   " = (Except.error SummError.invalidInput, 0) ∧
    streamRun demoBackend "   " = (Except.error SummError.invalidInput, 0) :=
  blank_transcript_rejected_before_backend demoBackend "   " (by decide)

/-- Claim C5: against a deterministic backend whose blocking completion
equals the concatenation of its streamed fragments, the single-shot result
and the streaming final event agree field for field on every transcript
(including agreeing on failure: neither produces a summary). -/
theorem streaming_singleshot_field_equivalence (b : Backend) (t : String)
    (h : b.complete (buildPrompt t) = String.join (b.streamChunks (buildPrompt t))) :
    fieldsMatch (singleResult b t) (finalSummary (eventsOf (streamRun b t))) = true := by
  unfold singleResult singleShot streamRun eventsOf
  by_cases hb : isBlank t = true
  · rw [if_pos hb, if_pos hb]
    rfl
  · rw [if_neg hb, if_neg hb, h]
    cases hp : parseSummary (String.join (b.streamChunks (buildPrompt t))) with
    | ok s =>
      show fieldsMatch (some s)
        (finalSummary (chunkEvents (b.streamChunks (buildPrompt t)) 0 ++
          [StreamEvent.finalEv s, StreamEvent.completeEv])) = true
      rw [finalSummary_chunks_append]
      simp [fieldsMatch, finalSummary]
    | error e =>
      show fieldsMatch none
        (finalSummary (chunkEvents (b.streamChunks (buildPrompt t)) 0 ++
          [StreamEvent.errorEv (errMessage e)])) = true
      rw [finalSummary_chunks_append]
      rfl

/-- Witness for C5 on a concrete deterministic backend. -/
theorem streaming_singleshot_field_equivalence_witness :
    fieldsMatch (singleResult demoBackend demoTranscript)
      (finalSummary (eventsOf (streamRun demoBackend demoTranscript))) = true :=
  streaming_singleshot_field_equivalence demoBackend demoTranscript rfl

/-- Claim C6: the single-shot entry point returns the
success/data/error envelope: success implies a data field is present and no
error string, failure implies no data and an error string. -/
theorem single_shot_envelope_shape (b : Backend) (t : String) :
    ((summarizeEnvelope b t).success = true →
      (summarizeEnvelope b t).data.isSome = true ∧ (summarizeEnvelope b t).error = none) ∧
    ((summarizeEnvelope b t).success = false →
      (summarizeEnvelope b t).data = none ∧ ((summarizeEnvelope b t).error).isSome = true) := by
  cases hp : (singleShot b t).1 with
  | ok s => simp [summarizeEnvelope, hp]
  | error e => simp [summarizeEnvelope, hp]

/-- Witness for C6 on a concrete successful request. -/
theorem single_shot_envelope_shape_witness :
    (summarizeEnvelope demoBackend demoTranscript).data.isSome = true ∧
    (summarizeEnvelope demoBackend demoTranscript).error = none :=
  (single_shot_envelope_shape demoBackend demoTranscript).1 (by decide)

end Summarizer

namespace ApiClient

/-- Claim C8: through `ApiService.request` — and hence through
`summarizeConversation` and `healthCheck`, which delegate to it — a non-ok
HTTP status throws an error naming the status, an ok status returns the
JSON-parsed response body unchanged, and the `Except` result admits no
third outcome. -/
theorem request_throws_or_returns_envelope {α : Type} (resp : HttpResponse (ApiResponse α)) :
    summarizeConversation resp = request resp ∧
    healthCheck resp = request resp ∧
    (resp.ok = false →
      request resp =
        Except.error ("API request failed: " ++ toString resp.status ++ " " ++ resp.statusText)) ∧
    (resp.ok = true → request resp = resp.jsonResult) := by
  refine ⟨rfl, rfl, fun h => ?_, fun h => ?_⟩
  · simp [request, h]
  · simp [request, h]

/-- Witness for C8 on a concrete failed and a concrete successful
response. -/
theorem request_throws_or_returns_envelope_witness :
    request failedResponse =
      Except.error
        ("API request failed: " ++ toString failedResponse.status ++ " " ++
          failedResponse.statusText) ∧
    request okResponse = okResponse.jsonResult :=
  ⟨(request_throws_or_returns_envelope failedResponse).2.2.1 rfl,
   (request_throws_or_returns_envelope okResponse).2.2.2 rfl⟩

end ApiClient

namespace PatientsUI

/-- Claim C9: the pair add/delete does not preserve patient-id uniqueness:
deleting any patient other than the last from the initial four-patient list
and then submitting the add form yields a list in which two patients share
an id, whatever the form contents. -/
theorem add_after_delete_duplicates_ids (form : PatientForm) :
    hasDuplicateIds (handleSubmit (handleDeletePatient initialPatients "1") form) = true ∧
    hasDuplicateIds (handleSubmit (handleDeletePatient initialPatients "2") form) = true ∧
    hasDuplicateIds (handleSubmit (handleDeletePatient initialPatients "3") form) = true :=
  ⟨rfl, rfl, rfl⟩

end PatientsUI

namespace SpeechCapture

/-- Claim C7: the `onend` handler attempts a restart exactly when the
`isRecording` flag is true at session end, and attempts none otherwise; the
service state is unchanged either way. -/
theorem session_end_restarts_iff_recording (s : SpeechState) :
    (step s SpeechEvent.sessionEnd).2 = SpeechOutput.restartAttempted s.isRecording ∧
    (step s SpeechEvent.sessionEnd).1 = s := by
  cases h : s.isRecording <;> simp [step, h]

/-- Counterexample to claim C10 as stated: a `startRecording` call made
while the service is already recording is successful (it returns true) yet
does not reset the accumulated transcript, and the transcript returned by
`stopRecording` afterwards includes final fragments from before that
successful start. -/
theorem start_while_recording_keeps_transcript :
    (step (runEvents initState
        [SpeechEvent.startRec, SpeechEvent.resultEv [("a", true)]])
      SpeechEvent.startRec).2 = SpeechOutput.started true ∧
    getFullTranscript
      (step (runEvents initState
          [SpeechEvent.startRec, SpeechEvent.resultEv [("a", true)]])
        SpeechEvent.startRec).1 = "a " ∧
    ("a " : String) ≠ "" ∧
    (step (runEvents initState
        [SpeechEvent.startRec, SpeechEvent.resultEv [("a", true)],
         SpeechEvent.startRec, SpeechEvent.resultEv [("b", true)]])
      SpeechEvent.stopRec).2 = SpeechOutput.stopped "a b " ∧
    ("a b " : String) ≠ "b " := by
  decide

theorem runEvents_results (st : SpeechState) (es : List SpeechEvent)
    (h : ∀ e ∈ es, isResultEv e = true) :
    runEvents st es = { st with fullTranscript := st.fullTranscript ++ finalsConcat es } := by
  induction es generalizing st with
  | nil =>
    show st = { st with fullTranscript := st.fullTranscript ++ "" }
    rw [String.append_empty]
  | cons e es ih =>
    have he : isResultEv e = true := h e (List.mem_cons_self e es)
    have hrest : ∀ x ∈ es, isResultEv x = true := fun x hx => h x (List.mem_cons_of_mem e hx)
    cases e with
    | startRec => simp [isResultEv] at he
    | startRecThrows => simp [isResultEv] at he
    | sessionEnd => simp [isResultEv] at he
    | stopRec => simp [isResultEv] at he
    | resultEv results =>
      show runEvents (step st (SpeechEvent.resultEv results)).1 es = _
      by_cases hc : (finalChunk results).isEmpty = true
      · have hempty : finalChunk results = "" := (String.isEmpty_iff (finalChunk results)).mp hc
        have hstep : (step st (SpeechEvent.resultEv results)).1 = st := by
          simp [step, hc]
        rw [hstep, ih st hrest]
        show _ = { st with
          fullTranscript := st.fullTranscript ++ (finalChunk results ++ finalsConcat es) }
        rw [hempty, String.empty_append]
      · have hstep : (step st (SpeechEvent.resultEv results)).1 =
            { st with fullTranscript := st.fullTranscript ++ finalChunk results } := by
          simp [step, hc]
        rw [hstep, ih _ hrest]
        show _ = { st with
          fullTranscript := st.fullTranscript ++ (finalChunk results ++ finalsConcat es) }
        rw [← String.append_assoc]

/-- Claim C10 as amended: a successful `startRecording` made while not
already recording resets the accumulated transcript to the empty string;
after it, each final recognition fragment — and only final fragments — is
appended followed by a space, and `getFullTranscript` and `stopRecording`
return exactly the concatenation of the final fragments received since that
reset.  (As stated the claim fails: a `startRecording` made while already
recording also succeeds but does not reset the accumulator.) -/
theorem transcript_accumulates_finals_since_reset (s : SpeechState) (es : List SpeechEvent)
    (h1 : s.hasRecognition = true) (h2 : s.isRecording = false)
    (h3 : ∀ e ∈ es, isResultEv e = true) :
    (step s SpeechEvent.startRec).2 = SpeechOutput.started true ∧
    getFullTranscript (step s SpeechEvent.startRec).1 = "" ∧
    getFullTranscript (runEvents (step s SpeechEvent.startRec).1 es) = finalsConcat es ∧
    (step (runEvents (step s SpeechEvent.startRec).1 es) SpeechEvent.stopRec).2 =
      SpeechOutput.stopped (finalsConcat es) := by
  have hstart : step s SpeechEvent.startRec =
      ({ s with isRecording := true, fullTranscript := "" }, SpeechOutput.started true) := by
    simp [step, h1, h2]
  refine ⟨by rw [hstart], by rw [hstart]; rfl, ?_, ?_⟩
  · rw [hstart]
    show getFullTranscript
      (runEvents { s with isRecording := true, fullTranscript := "" } es) = _
    rw [runEvents_results _ _ h3]
    show "" ++ finalsConcat es = finalsConcat es
    rw [String.empty_append]
  · rw [hstart]
    show (step (runEvents { s with isRecording := true, fullTranscript := "" } es)
      SpeechEvent.stopRec).2 = _
    rw [runEvents_results _ _ h3]
    simp [step, h1, String.empty_append]

/-- Witness for the amended C10 on a concrete event trace with a final and
an interim fragment. -/
theorem transcript_accumulates_finals_since_reset_witness :
    (step (⟨true, false, "x"⟩ : SpeechState) SpeechEvent.startRec).2 =
      SpeechOutput.started true ∧
    getFullTranscript
      (step (⟨true, false, "x"⟩ : SpeechState) SpeechEvent.startRec).1 = "" ∧
    getFullTranscript
      (runEvents (step (⟨true, false, "x"⟩ : SpeechState) SpeechEvent.startRec).1
        [SpeechEvent.resultEv [("hello", true), ("um", false)],
         SpeechEvent.resultEv [("world", true)]]) =
      finalsConcat
        [SpeechEvent.resultEv [("hello", true), ("um", false)],
         SpeechEvent.resultEv [("world", true)]] ∧
    (step (runEvents (step (⟨true, false, "x"⟩ : SpeechState) SpeechEvent.startRec).1
        [SpeechEvent.resultEv [("hello", true), ("um", false)],
         SpeechEvent.resultEv [("world", true)]]) SpeechEvent.stopRec).2 =
      SpeechOutput.stopped
        (finalsConcat
          [SpeechEvent.resultEv [("hello", true), ("um", false)],
           SpeechEvent.resultEv [("world", true)]]) :=
  transcript_accumulates_finals_since_reset ⟨true, false, "x"⟩
    [SpeechEvent.resultEv [("hello", true), ("um", false)],
     SpeechEvent.resultEv [("world", true)]] rfl rfl (by decide)

end SpeechCapture
